import Mathlib

/-!
# CineScript AI — verification of the storyboard application

Shallow embedding of the TypeScript sources under `src/`:

* data model from the shared type declarations (`StoryboardData`,
  `GenerationOptions`, `SavedStoryboard`, ...);
* the generative-AI service adapter (`src/services/geminiService.ts`):
  credential resolution and the three operations, with the upstream
  service's behaviour supplied as an explicit oracle value;
* the storyboard viewer's visual-generation loop and master-board layout
  (`src/components/ImageUpload.tsx`, StoryboardViewer section);
* the application shell's generation handler and history mutations
  (`src/App.tsx`, the variant with the settings panel).

Network effects are made observable: each adapter call returns, besides
its outcome, which credential the service client was constructed with and
how many network requests were issued.
-/

namespace CineScript

/-! ## Shared data model (types declaration file) -/

structure EmotionalArc where
  setup : String
  build : String
  turn : String
  payoff : String
deriving DecidableEq

structure SceneBreakdown where
  subjects : String
  characters : String
  environmentLighting : String
  visualAnchors : List String
deriving DecidableEq

structure ThemeStory where
  theme : String
  logline : String
  emotionalArc : EmotionalArc
deriving DecidableEq

structure CinematicApproach where
  shotProgression : String
  cameraMovement : String
  lensExposure : String
  lightColor : String
deriving DecidableEq

structure Keyframe where
  id : Int
  shotType : String
  duration : String
  composition : String
  action : String
  dialogue : String
  camera : String
  lensDoF : String
  lighting : String
  sound : String
deriving DecidableEq

structure Headline where
  line1 : String
  line2 : String
deriving DecidableEq

structure AuditionClip where
  id : String
  composition : String
  action : String
  dialogue : String
deriving DecidableEq

structure AuditionCharacter where
  characterName : String
  appearance : String
  clips : List AuditionClip
deriving DecidableEq

/-- `AspectRatio = '9:16' | '16:9'`. -/
inductive AspectRatio where
  | r916
  | r169
deriving DecidableEq

/-- The literal string value of an aspect ratio. -/
def AspectRatio.str : AspectRatio → String
  | .r916 => "9:16"
  | .r169 => "16:9"

inductive VideoModel where
  | VEO3
  | Sora2
deriving DecidableEq

inductive VideoDuration where
  | d8s
  | d10s
  | d15s
deriving DecidableEq

inductive ImageGenModel where
  | NanoBanana
  | NanoBananaPro
deriving DecidableEq

inductive InputType where
  | IMAGE
  | TEXT
deriving DecidableEq

structure GenerationOptions where
  model : VideoModel
  duration : VideoDuration
  imageModel : ImageGenModel
  inputType : InputType
  aspectRatio : AspectRatio
deriving DecidableEq

/-- `StoryboardData`, in its most capable shape: the optional fields
(`sourceScript`, `aspectRatio`, `headline`, `auditions`) are `Option`s /
possibly-empty lists. -/
structure StoryboardData where
  sourceScript : Option String
  aspectRatio : Option String
  headline : Option Headline
  breakdown : SceneBreakdown
  theme : ThemeStory
  approach : CinematicApproach
  keyframes : List Keyframe
  auditions : List AuditionCharacter
deriving DecidableEq

structure SavedStoryboard where
  id : String
  timestamp : Int
  data : StoryboardData
  options : GenerationOptions
  previewImage : Option String
deriving DecidableEq

inductive AppState where
  | UPLOAD
  | ANALYZING
  | STORYBOARD
  | EDITOR
  | HISTORY
deriving DecidableEq

/-! ## Generative-AI service adapter (`src/services/geminiService.ts`)

`localStorage.getItem` returns a string or null: `Option String`.
`process.env.API_KEY` may be undefined: `Option String`.  JavaScript's
`||` treats both null/undefined and the empty string as falsy, so an
absent value and the empty string behave identically; `optVal` collapses
the `Option`. -/

structure CredentialStore where
  localKey : Option String
  envKey : Option String

/-- A JS string-or-nullish value as a string (`null`/`undefined` ↦ `""`,
which is exactly how `||` chains treat it). -/
def optVal (o : Option String) : String := o.getD ""

/-- `getApiKey = () => localStorage.getItem(LOCAL_KEY_NAME) || process.env.API_KEY || ""`. -/
def getApiKey (store : CredentialStore) : String :=
  let savedKey := optVal store.localKey
  if savedKey ≠ "" then savedKey
  else if optVal store.envKey ≠ "" then optVal store.envKey
  else ""

/-- Result of one adapter operation: the outcome (`.error` carries the
thrown message), the credential the `GoogleGenAI` client was constructed
with (if the call got that far), and the number of network requests sent. -/
structure CallResult (α : Type) where
  outcome : Except String α
  clientKey : Option String
  networkCalls : Nat

/-- Oracle for the upstream structured-text call in `generateStoryboard`:
`text` is `response.text` (absent or empty is falsy), `parsed` the result
of `JSON.parse(response.text)` (`.error` = the exception it would throw). -/
structure StoryboardResponse where
  text : Option String
  parsed : Except String StoryboardData

/-- `generateStoryboard(input, options)`: resolve the key (throwing before
the client is built when it is empty), send the request, require a
non-empty `response.text`, parse it, and force-overwrite `aspectRatio`
with `options.aspectRatio` before returning. -/
def generateStoryboard (store : CredentialStore) (options : GenerationOptions)
    (resp : StoryboardResponse) : CallResult StoryboardData :=
  let apiKey := getApiKey store
  if apiKey = "" then
    { outcome := .error "API 키가 설정되지 않았습니다.", clientKey := none, networkCalls := 0 }
  else if optVal resp.text = "" then
    { outcome := .error "Failed to receive response from Gemini.",
      clientKey := some apiKey, networkCalls := 1 }
  else
    match resp.parsed with
    | .error m => { outcome := .error m, clientKey := some apiKey, networkCalls := 1 }
    | .ok data =>
        { outcome := .ok { data with aspectRatio := some options.aspectRatio.str },
          clientKey := some apiKey, networkCalls := 1 }

/-- One `inlineData` part of a response candidate. -/
structure InlinePart where
  mimeType : Option String
  data : String

/-- The scan over `candidate.content.parts` returning the first part that
has `inlineData` (text parts are `none`). -/
def firstInline : List (Option InlinePart) → Option InlinePart
  | [] => none
  | some p :: _ => some p
  | none :: rest => firstInline rest

/-- `data:<mime>;base64,<data>`, defaulting the MIME type to `image/png`. -/
def dataUrl (p : InlinePart) : String :=
  "data:" ++ p.mimeType.getD "image/png" ++ ";base64," ++ p.data

/-- Oracle for an image-model call: `none` models an absent
`candidates[0]`, otherwise the parts of the first candidate. -/
def ImageResponse : Type := Option (List (Option InlinePart))

/-- `generateKeyframeImage(prompt, originalFile, modelType, aspectRatio,
characterContext)`: key check first, then extract the first inline-image
part of the first candidate as a data URL. -/
def generateKeyframeImage (store : CredentialStore) (_prompt : String)
    (_modelType : ImageGenModel) (_ratio : AspectRatio)
    (resp : ImageResponse) : CallResult String :=
  let apiKey := getApiKey store
  if apiKey = "" then
    { outcome := .error "API 키가 설정되지 않았습니다.", clientKey := none, networkCalls := 0 }
  else
    match resp with
    | some parts =>
        match firstInline parts with
        | some p => { outcome := .ok (dataUrl p), clientKey := some apiKey, networkCalls := 1 }
        | none =>
            { outcome := .error "Failed to generate image.",
              clientKey := some apiKey, networkCalls := 1 }
    | none =>
        { outcome := .error "Failed to generate image.",
          clientKey := some apiKey, networkCalls := 1 }

/-- `editImageWithPrompt(originalFile, prompt)`: same key check and the
same extraction contract, failing with "Editing failed.". -/
def editImageWithPrompt (store : CredentialStore) (_prompt : String)
    (resp : ImageResponse) : CallResult String :=
  let apiKey := getApiKey store
  if apiKey = "" then
    { outcome := .error "API 키가 설정되지 않았습니다.", clientKey := none, networkCalls := 0 }
  else
    match resp with
    | some parts =>
        match firstInline parts with
        | some p => { outcome := .ok (dataUrl p), clientKey := some apiKey, networkCalls := 1 }
        | none =>
            { outcome := .error "Editing failed.",
              clientKey := some apiKey, networkCalls := 1 }
    | none =>
        { outcome := .error "Editing failed.",
          clientKey := some apiKey, networkCalls := 1 }

/-! ## Storyboard viewer: visual generation (`ImageUpload.tsx`, StoryboardViewer)

React state of the viewer relevant to generation: `generatedImages`
(object keyed by keyframe id) and `loadingImages` (per-id busy flags),
modelled as functions.  The upstream image call's outcome for a given id
is supplied as an oracle (`some url` = success, `none` = failure).  One
network request is recorded as a `callStart`/`callEnd` event pair. -/

structure ViewerState where
  generatedImages : Int → Option String
  loadingImages : Int → Bool

inductive VisualEvent where
  | callStart (id : Int)
  | callEnd (id : Int)
deriving DecidableEq

/-- `generateVisual(id, action, composition, lighting)`: no-op while the
per-id busy flag is set; otherwise set the flag, await one
`generateKeyframeImage` call, cache the data URL on success, and clear
the flag in the `finally` block. -/
def generateVisual (outcome : Int → Option String) (st : ViewerState) (id : Int) :
    ViewerState × List VisualEvent :=
  if st.loadingImages id then (st, [])
  else
    let st1 : ViewerState :=
      { st with loadingImages := fun i => if i = id then true else st.loadingImages i }
    let st2 : ViewerState :=
      match outcome id with
      | some url =>
          { st1 with generatedImages := fun i => if i = id then some url else st1.generatedImages i }
      | none => st1
    ({ st2 with loadingImages := fun i => if i = id then false else st2.loadingImages i },
     [.callStart id, .callEnd id])

/-- The loop body of `generateAllVisuals`.  The cache test
`!generatedImages[kf.id]` reads the render closure captured at invocation
time (`snap`), while each awaited `generateVisual` updates the live state
through functional updaters — hence the separate snapshot argument. -/
def generateAllVisualsAux (outcome : Int → Option String) (snap : Int → Option String)
    (st : ViewerState) : List Keyframe → ViewerState × List VisualEvent
  | [] => (st, [])
  | kf :: rest =>
      if (snap kf.id).isNone then
        let p := generateVisual outcome st kf.id
        let q := generateAllVisualsAux outcome snap p.1 rest
        (q.1, p.2 ++ q.2)
      else
        generateAllVisualsAux outcome snap st rest

/-- `generateAllVisuals`: for each keyframe without a cached image, await
its single-visual generation before moving to the next. -/
def generateAllVisuals (outcome : Int → Option String) (st : ViewerState)
    (kfs : List Keyframe) : ViewerState × List VisualEvent :=
  generateAllVisualsAux outcome st.generatedImages st kfs

/-- Number of generation calls initiated in a trace. -/
def countStarts (evs : List VisualEvent) : Nat :=
  evs.countP fun e => match e with | .callStart _ => true | .callEnd _ => false

/-- A trace is strictly sequential: it is a concatenation of matched
`callStart id`/`callEnd id` pairs, so a call begins only after the
previous one has resolved. -/
def sequentialTrace : List VisualEvent → Bool
  | [] => true
  | .callStart i :: .callEnd j :: rest => i = j && sequentialTrace rest
  | _ => false

/-! ## Storyboard viewer: master-board layout and cover-fit drawing -/

structure MasterBoardLayout where
  cols : Nat
  cellWidth : Nat
  cellHeight : Nat
  headerHeight : Nat
  rows : Nat
  canvasWidth : Nat
  canvasHeight : Nat
deriving DecidableEq

/-- The geometry computed at the top of `downloadMasterBoard` for `n`
keyframes: orientation constants, `rows = Math.ceil(n / cols)`, and the
canvas dimensions. -/
def masterBoardLayout (ratio : AspectRatio) (n : Nat) : MasterBoardLayout :=
  let isHorizontal := ratio = .r169
  let cols := if isHorizontal then 2 else 3
  let cellWidth := if isHorizontal then 640 else 360
  let cellHeight := if isHorizontal then 360 else 640
  let headerHeight := 280
  let rows := (n + cols - 1) / cols
  { cols := cols, cellWidth := cellWidth, cellHeight := cellHeight,
    headerHeight := headerHeight, rows := rows,
    canvasWidth := cols * cellWidth, canvasHeight := headerHeight + rows * cellHeight }

structure CoverFit where
  renderW : ℚ
  renderH : ℚ
  offsetX : ℚ
  offsetY : ℚ
deriving DecidableEq

/-- The per-cell cover-fit computation of the master-board draw routine:
compare the image's aspect ratio with the target cell's; when the image
is relatively wider, fill the cell height and centre horizontally,
otherwise fill the cell width and centre vertically. -/
def coverFit (imgW imgH cellW cellH : ℚ) : CoverFit :=
  let imgRatio := imgW / imgH
  let targetRatio := cellW / cellH
  if imgRatio > targetRatio then
    { renderW := cellH * imgRatio, renderH := cellH,
      offsetX := (cellW - cellH * imgRatio) / 2, offsetY := 0 }
  else
    { renderW := cellW, renderH := cellW / imgRatio,
      offsetX := 0, offsetY := (cellH - cellW / imgRatio) / 2 }

/-! ## History list and persistence (`HistoryList` + `App.tsx`) -/

/-- In-memory history (the `history` state) together with what is stored
under the history storage key (`removeItem` / absent is the empty list). -/
structure HistoryState where
  memory : List SavedStoryboard
  persisted : List SavedStoryboard
deriving DecidableEq

/-- Stable insertion of an entry into a timestamp-descending list: walk
past entries with a strictly larger timestamp, so earlier entries keep
their position among equal timestamps. -/
def insertByTimestamp (x : SavedStoryboard) : List SavedStoryboard → List SavedStoryboard
  | [] => [x]
  | y :: ys => if x.timestamp < y.timestamp then y :: insertByTimestamp x ys else x :: y :: ys

/-- `items.sort((a, b) => b.timestamp - a.timestamp)`: the rendered order
of the history list, timestamp-descending (stable). -/
def renderedHistory : List SavedStoryboard → List SavedStoryboard
  | [] => []
  | x :: xs => insertByTimestamp x (renderedHistory xs)

/-- `deleteFromHistory(id)`: filter the entry out of the in-memory list
and persist the same filtered array. -/
def deleteFromHistory (st : HistoryState) (id : String) : HistoryState :=
  let updated := st.memory.filter fun item => item.id != id
  { memory := updated, persisted := updated }

/-- `clearHistory()`: empty the in-memory list and remove the storage key
(an absent key reads back as the empty list). -/
def clearHistory (_st : HistoryState) : HistoryState :=
  { memory := [], persisted := [] }

/-! ## Application shell (`App.tsx`, settings-panel variant) -/

inductive GenInput where
  | file (name : String)
  | text (s : String)

structure ShellState where
  appState : AppState
  selectedImage : Option String
  selectedText : String
  storyboardData : Option StoryboardData
  error : Option String
  selectedOptions : Option GenerationOptions
  history : List SavedStoryboard
  persistedHistory : List SavedStoryboard
  isSettingsOpen : Bool

/-- `pat` occurs as a contiguous run at the head of `s`. -/
def matchesAt : List Char → List Char → Bool
  | [], _ => true
  | _ :: _, [] => false
  | p :: ps, c :: cs => p = c && matchesAt ps cs

/-- `pat` occurs somewhere in `s` (JavaScript `String.prototype.includes`). -/
def charsInclude (pat : List Char) : List Char → Bool
  | [] => pat.isEmpty
  | c :: cs => matchesAt pat (c :: cs) || charsInclude pat cs

/-- `s.includes(pat)`. -/
def strIncludes (s pat : String) : Bool := charsInclude pat.data s.data

/-- The inline message shown when the shell's own key check fails. -/
def missingKeyMsg : String := "API 키가 설정되지 않았습니다. 설정에서 Gemini API 키를 입력해주세요."

/-- The `catch` block of `handleGenerate`: map the thrown message to the
displayed message and to whether the settings panel is reopened. -/
def mapGenerationError (m : String) : String × Bool :=
  if strIncludes m "API key" then
    ("API 키 인증에 실패했습니다. 설정에서 키를 확인해주세요.", true)
  else if strIncludes m "JSON" then
    ("AI가 유효한 데이터 형식을 생성하지 못했습니다. 다시 시도해주세요.", false)
  else if strIncludes m "Requested entity was not found" then
    ("유효하지 않은 프로젝트이거나 API 키가 올바르지 않습니다.", true)
  else
    ("스토리보드를 생성하는 도중 오류가 발생했습니다.", false)

/-- The four inline messages `handleGenerate` can show on failure. -/
def generationFailureMsgs : List String :=
  ["API 키 인증에 실패했습니다. 설정에서 키를 확인해주세요.",
   "AI가 유효한 데이터 형식을 생성하지 못했습니다. 다시 시도해주세요.",
   "유효하지 않은 프로젝트이거나 API 키가 올바르지 않습니다.",
   "스토리보드를 생성하는 도중 오류가 발생했습니다."]

/-- `handleGenerate(input, options)` of the shell.  `newId`/`newTs` stand
for the `Date.now()` reads in `saveToHistory`, `preview` for the data URL
produced from the uploaded file (if any).  Returns the new shell state
and whether the service adapter was invoked at all. -/
def handleGenerate (store : CredentialStore) (resp : StoryboardResponse)
    (newId : String) (newTs : Int) (preview : Option String)
    (st : ShellState) (input : GenInput) (options : GenerationOptions) :
    ShellState × Bool :=
  -- if (!savedKey && !envKey) { setError(...); setIsSettingsOpen(true); return; }
  if optVal store.localKey = "" ∧ optVal store.envKey = "" then
    ({ st with error := some missingKeyMsg, isSettingsOpen := true }, false)
  else
    let st1 : ShellState :=
      match input with
      | .file f => { st with selectedImage := some f, selectedText := "" }
      | .text t => { st with selectedText := t, selectedImage := none }
    let st2 : ShellState :=
      { st1 with selectedOptions := some options, appState := .ANALYZING, error := none }
    match (generateStoryboard store options resp).outcome with
    | .ok data =>
        let newItem : SavedStoryboard :=
          { id := newId, timestamp := newTs, data := data, options := options,
            previewImage := match input with | .file _ => preview | .text _ => none }
        let updated := newItem :: st2.history
        ({ st2 with storyboardData := some data, history := updated,
                    persistedHistory := updated, appState := .STORYBOARD }, true)
    | .error m =>
        let mapped := mapGenerationError m
        ({ st2 with error := some mapped.1,
                    isSettingsOpen := if mapped.2 then true else st2.isSettingsOpen,
                    appState := .UPLOAD }, true)

/-! ## Dialogue editing (`handleDialogueChange`) -/

/-- `handleDialogueChange(id, newDialogue)`: map over the keyframes,
replacing the dialogue of the keyframe whose id matches. -/
def handleDialogueChange (st : StoryboardData) (id : Int) (newDialogue : String) :
    StoryboardData :=
  { st with keyframes := st.keyframes.map fun kf =>
      if kf.id = id then { kf with dialogue := newDialogue } else kf }

/-! ## Sample values used by witness theorems -/

def sampleData : StoryboardData :=
  { sourceScript := none, aspectRatio := some "9:16", headline := none,
    breakdown := ⟨"rooftop", "South Korean actress, 20s", "dusk, neon", ["umbrella"]⟩,
    theme := ⟨"farewell", "a last meeting", ⟨"calm", "tension", "reveal", "release"⟩⟩,
    approach := ⟨"wide to close", "slow dolly", "85mm f1.8", "teal and amber"⟩,
    keyframes := [], auditions := [] }

def sampleOptions : GenerationOptions :=
  { model := .Sora2, duration := .d15s, imageModel := .NanoBanana,
    inputType := .TEXT, aspectRatio := .r169 }

def sampleKf (i : Int) : Keyframe :=
  { id := i, shotType := "WS", duration := "2s", composition := "center",
    action := "walks", dialogue := "line", camera := "static",
    lensDoF := "deep", lighting := "soft", sound := "rain" }

def sampleShell : ShellState :=
  { appState := .UPLOAD, selectedImage := none, selectedText := "",
    storyboardData := none, error := none, selectedOptions := none,
    history := [], persistedHistory := [], isSettingsOpen := false }

/-! ## C1 -/

/-- C1: whatever `aspectRatio` the upstream service's parsed JSON carried,
a successful `generateStoryboard` returns a `StoryboardData` whose
`aspectRatio` equals `options.aspectRatio` — the adapter force-overwrites
the parsed result's field before returning, for `"16:9"` and `"9:16"`
alike. -/
theorem generateStoryboard_forces_aspectRatio
    (store : CredentialStore) (options : GenerationOptions) (resp : StoryboardResponse)
    (data : StoryboardData)
    (h : (generateStoryboard store options resp).outcome = .ok data) :
    data.aspectRatio = some options.aspectRatio.str := by
  unfold generateStoryboard at h
  by_cases hk : getApiKey store = ""
  · simp [hk] at h
  · by_cases ht : optVal resp.text = ""
    · simp [hk, ht] at h
    · cases hp : resp.parsed with
      | error m => simp [hk, ht, hp] at h
      | ok d =>
          simp [hk, ht, hp] at h
          rw [← h]

/-- Witness for C1: a concrete call with requested ratio `"16:9"` whose
simulated upstream response claimed `"9:16"` returns data with
`aspectRatio = "16:9"`. -/
theorem generateStoryboard_forces_aspectRatio_witness :
    ({ sampleData with aspectRatio := some "16:9" } : StoryboardData).aspectRatio
      = some "16:9" :=
  generateStoryboard_forces_aspectRatio ⟨some "key", none⟩ sampleOptions
    ⟨some "{}", .ok sampleData⟩ _ rfl

/-! ## C2 -/

/-- C2: credential resolution for the three AI operations.  A non-empty
stored local credential is used; otherwise a non-empty environment
fallback is used; when neither exists (the empty string counting as
absent), each operation fails with the MissingCredential error, builds no
service client and attempts no network call. -/
theorem credential_resolution
    (store : CredentialStore) (options : GenerationOptions) (resp : StoryboardResponse)
    (p : String) (mt : ImageGenModel) (ar : AspectRatio) (ir : ImageResponse) :
    (∀ k, store.localKey = some k → k ≠ "" → getApiKey store = k)
    ∧ (optVal store.localKey = "" →
        ∀ e, store.envKey = some e → e ≠ "" → getApiKey store = e)
    ∧ (getApiKey store ≠ "" →
        (generateStoryboard store options resp).clientKey = some (getApiKey store)
        ∧ (generateKeyframeImage store p mt ar ir).clientKey = some (getApiKey store)
        ∧ (editImageWithPrompt store p ir).clientKey = some (getApiKey store))
    ∧ (optVal store.localKey = "" → optVal store.envKey = "" →
        ((generateStoryboard store options resp).outcome = .error "API 키가 설정되지 않았습니다."
          ∧ (generateStoryboard store options resp).networkCalls = 0
          ∧ (generateStoryboard store options resp).clientKey = none)
        ∧ ((generateKeyframeImage store p mt ar ir).outcome = .error "API 키가 설정되지 않았습니다."
          ∧ (generateKeyframeImage store p mt ar ir).networkCalls = 0
          ∧ (generateKeyframeImage store p mt ar ir).clientKey = none)
        ∧ ((editImageWithPrompt store p ir).outcome = .error "API 키가 설정되지 않았습니다."
          ∧ (editImageWithPrompt store p ir).networkCalls = 0
          ∧ (editImageWithPrompt store p ir).clientKey = none)) := by
  refine ⟨?_, ?_, ?_, ?_⟩
  · intro k hk hne
    simp [getApiKey, optVal, hk, hne]
  · intro hl e he hne
    simp [getApiKey, optVal, he, hne] at *
    simp [hl, hne]
  · intro hne
    unfold generateStoryboard generateKeyframeImage editImageWithPrompt
    refine ⟨?_, ?_, ?_⟩
    · by_cases ht : optVal resp.text = ""
      · simp [hne, ht]
      · cases hp : resp.parsed <;> simp [hne, ht, hp]
    · cases ir with
      | none => simp [hne]
      | some parts => cases hfi : firstInline parts <;> simp [hne, hfi]
    · cases ir with
      | none => simp [hne]
      | some parts => cases hfi : firstInline parts <;> simp [hne, hfi]
  · intro hl he
    have hk : getApiKey store = "" := by simp [getApiKey, hl, he]
    unfold generateStoryboard generateKeyframeImage editImageWithPrompt
    simp [hk]

/-- Witness for C2: with local key `"local"` and environment key `"env"`
the client uses `"local"`; with only `"env"` it uses `"env"`; with
neither, `generateKeyframeImage` fails before any network call. -/
theorem credential_resolution_witness :
    getApiKey ⟨some "local", some "env"⟩ = "local"
    ∧ getApiKey ⟨none, some "env"⟩ = "env"
    ∧ (generateKeyframeImage ⟨some "", none⟩ "p" .NanoBanana .r916 none).networkCalls = 0
    ∧ (generateKeyframeImage ⟨some "", none⟩ "p" .NanoBanana .r916 none).outcome
        = .error "API 키가 설정되지 않았습니다." :=
  ⟨(credential_resolution ⟨some "local", some "env"⟩ sampleOptions
      ⟨none, .ok sampleData⟩ "p" .NanoBanana .r916 none).1 "local" rfl (by decide),
   (credential_resolution ⟨none, some "env"⟩ sampleOptions
      ⟨none, .ok sampleData⟩ "p" .NanoBanana .r916 none).2.1 rfl "env" rfl (by decide),
   ((credential_resolution ⟨some "", none⟩ sampleOptions
      ⟨none, .ok sampleData⟩ "p" .NanoBanana .r916 none).2.2.2 rfl rfl).2.1.2.1,
   ((credential_resolution ⟨some "", none⟩ sampleOptions
      ⟨none, .ok sampleData⟩ "p" .NanoBanana .r916 none).2.2.2 rfl rfl).2.1.1⟩

/-! ## C3 / C4: viewer generation lemmas -/

/-- An idle `generateVisual` performs exactly one call (start then end)
and afterwards the only busy flag that can have changed is `id`'s, which
is clear. -/
theorem generateVisual_idle (outcome : Int → Option String) (st : ViewerState) (id : Int)
    (h : st.loadingImages id = false) :
    (generateVisual outcome st id).2 = [.callStart id, .callEnd id]
    ∧ ∀ j, (generateVisual outcome st id).1.loadingImages j
        = if j = id then false else st.loadingImages j := by
  constructor
  · unfold generateVisual
    rw [h]
    cases outcome id <;> rfl
  · intro j
    unfold generateVisual
    rw [h]
    cases outcome id <;> by_cases hj : j = id <;> simp [hj]

/-- The trace of any `generateVisual` invocation is empty or the matched
pair for its own id. -/
theorem generateVisual_trace_cases (outcome : Int → Option String) (st : ViewerState)
    (id : Int) :
    (generateVisual outcome st id).2 = []
    ∨ (generateVisual outcome st id).2 = [.callStart id, .callEnd id] := by
  unfold generateVisual
  by_cases h : st.loadingImages id
  · rw [h]; exact Or.inl rfl
  · rw [Bool.not_eq_true] at h
    rw [h]
    cases outcome id <;> simp

/-- With every listed keyframe uncached in the snapshot and idle, the
sweep's trace is one matched call pair per keyframe, in list order. -/
theorem generateAllVisualsAux_trace (outcome snap : Int → Option String) :
    ∀ (kfs : List Keyframe) (st : ViewerState),
      (∀ kf ∈ kfs, snap kf.id = none) →
      (∀ kf ∈ kfs, st.loadingImages kf.id = false) →
      (generateAllVisualsAux outcome snap st kfs).2
        = kfs.flatMap fun kf => [.callStart kf.id, .callEnd kf.id] := by
  intro kfs
  induction kfs with
  | nil => intro st _ _; rfl
  | cons kf rest ih =>
      intro st hsnap hidle
      have h1 : snap kf.id = none := hsnap kf (by simp)
      have h2 : st.loadingImages kf.id = false := hidle kf (by simp)
      have hgv := generateVisual_idle outcome st kf.id h2
      have hrest : ∀ kf' ∈ rest,
          (generateVisual outcome st kf.id).1.loadingImages kf'.id = false := by
        intro kf' hmem
        rw [hgv.2 kf'.id]
        by_cases hj : kf'.id = kf.id <;> simp [hj, hidle kf' (by simp [hmem])]
      unfold generateAllVisualsAux
      rw [h1]
      simp only [Option.isNone_none, if_true]
      rw [List.flatMap_cons]
      rw [ih (generateVisual outcome st kf.id).1
            (fun kf' hmem => hsnap kf' (by simp [hmem])) hrest, hgv.1]

/-- Every call started during a sweep is for an id that the invocation
snapshot had no cached image for. -/
theorem generateAllVisualsAux_start_uncached (outcome snap : Int → Option String) :
    ∀ (kfs : List Keyframe) (st : ViewerState) (id : Int),
      VisualEvent.callStart id ∈ (generateAllVisualsAux outcome snap st kfs).2 →
      snap id = none := by
  intro kfs
  induction kfs with
  | nil => intro st id h; simp [generateAllVisualsAux] at h
  | cons kf rest ih =>
      intro st id h
      unfold generateAllVisualsAux at h
      by_cases hc : (snap kf.id).isNone
      · rw [if_pos hc] at h
        simp only [List.mem_append] at h
        rcases h with h | h
        · rcases generateVisual_trace_cases outcome st kf.id with he | he <;> rw [he] at h
          · simp at h
          · simp only [List.mem_cons, List.mem_singleton] at h
            rcases h with h | h | h
            · cases h; exact Option.isNone_iff_eq_none.mp hc
            · cases h
            · cases h
        · exact ih _ _ h
      · rw [if_neg hc] at h
        exact ih _ _ h

/-- A concatenation of matched call pairs is a sequential trace. -/
theorem sequentialTrace_bind (kfs : List Keyframe) :
    sequentialTrace (kfs.flatMap fun kf => [.callStart kf.id, .callEnd kf.id]) = true := by
  induction kfs with
  | nil => rfl
  | cons kf rest ih => simpa [sequentialTrace] using ih

/-- A concatenation of matched call pairs starts one call per keyframe. -/
theorem countStarts_bind (kfs : List Keyframe) :
    countStarts (kfs.flatMap fun kf => [.callStart kf.id, .callEnd kf.id]) = kfs.length := by
  induction kfs with
  | nil => rfl
  | cons kf rest ih => simpa [countStarts, List.countP_cons] using ih

/-- C3: "generate all visuals" over N ≥ 1 keyframes, none cached and none
busy, issues exactly N visual-generation calls, and the trace is the
matched start/end pair of each keyframe in order — call (k+1) begins only
after call k resolved, so at most one request is outstanding. -/
theorem generateAllVisuals_sequential
    (outcome : Int → Option String) (st : ViewerState) (kfs : List Keyframe)
    (_hn : 1 ≤ kfs.length)
    (hcache : ∀ kf ∈ kfs, st.generatedImages kf.id = none)
    (hidle : ∀ kf ∈ kfs, st.loadingImages kf.id = false) :
    (generateAllVisuals outcome st kfs).2
        = (kfs.flatMap fun kf => [.callStart kf.id, .callEnd kf.id])
    ∧ countStarts (generateAllVisuals outcome st kfs).2 = kfs.length
    ∧ sequentialTrace (generateAllVisuals outcome st kfs).2 = true := by
  have htr := generateAllVisualsAux_trace outcome st.generatedImages kfs st hcache hidle
  refine ⟨htr, ?_, ?_⟩
  · rw [generateAllVisuals, htr, countStarts_bind]
  · rw [generateAllVisuals, htr, sequentialTrace_bind]

/-- Witness for C3: two uncached keyframes yield exactly the two matched
call pairs, sequentially. -/
theorem generateAllVisuals_sequential_witness :
    (generateAllVisuals (fun _ => some "url") ⟨fun _ => none, fun _ => false⟩
        [sampleKf 1, sampleKf 2]).2
      = [.callStart 1, .callEnd 1, .callStart 2, .callEnd 2]
    ∧ countStarts (generateAllVisuals (fun _ => some "url")
        ⟨fun _ => none, fun _ => false⟩ [sampleKf 1, sampleKf 2]).2 = 2 := by
  have h := generateAllVisuals_sequential (fun _ => some "url")
    ⟨fun _ => none, fun _ => false⟩ [sampleKf 1, sampleKf 2]
    (by decide) (fun kf _ => rfl) (fun kf _ => rfl)
  exact ⟨by rw [h.1]; rfl, h.2.1⟩

/-- C4: the per-id busy flag makes "generate visual" a no-op (no event,
no state change) while that id is already in flight, and "generate all
visuals" never starts a call for an id that already has a cached image —
so at most one generation per id is ever outstanding. -/
theorem per_id_generation_guarded
    (outcome : Int → Option String) (st : ViewerState) (id : Int) (kfs : List Keyframe) :
    (st.loadingImages id = true → generateVisual outcome st id = (st, []))
    ∧ (st.generatedImages id ≠ none →
        VisualEvent.callStart id ∉ (generateAllVisuals outcome st kfs).2) := by
  constructor
  · intro h
    unfold generateVisual
    rw [h]
    rfl
  · intro h hmem
    exact h (generateAllVisualsAux_start_uncached outcome st.generatedImages kfs st id hmem)

/-- Witness for C4: with id 5 busy, "generate visual" emits no events;
with id 7 cached, the sweep over a keyframe list containing id 7 never
starts a call for 7. -/
theorem per_id_generation_guarded_witness :
    (generateVisual (fun _ => some "url")
        ⟨fun _ => none, fun i => i = 5⟩ 5).2 = []
    ∧ VisualEvent.callStart 7 ∉
        (generateAllVisuals (fun _ => some "url")
          ⟨fun i => if i = 7 then some "cached" else none, fun _ => false⟩
          [sampleKf 7, sampleKf 8]).2 := by
  constructor
  · rw [(per_id_generation_guarded (fun _ => some "url")
      ⟨fun _ => none, fun i => i = 5⟩ 5 []).1 (by simp)]
  · exact (per_id_generation_guarded (fun _ => some "url")
      ⟨fun i => if i = 7 then some "cached" else none, fun _ => false⟩ 7
      [sampleKf 7, sampleKf 8]).2 (by simp)

/-! ## C5: master-board grid geometry -/

/-- C5: the master board uses 2 columns of 640×360 cells for `16:9` and
3 columns of 360×640 cells for `9:16`; `rows` is the least row count
whose grid holds all `n ≥ 1` keyframes (i.e. ceiling(n / columns)); the
canvas is `columns × cellWidth` wide and `280 + rows × cellHeight` tall;
for 7 keyframes this gives 3×3 at `9:16` and 2×4 at `16:9`. -/
theorem masterBoard_grid_geometry (n : Nat) (hn : 1 ≤ n) :
    ((masterBoardLayout .r169 n).cols = 2
      ∧ (masterBoardLayout .r169 n).cellWidth = 640
      ∧ (masterBoardLayout .r169 n).cellHeight = 360)
    ∧ ((masterBoardLayout .r916 n).cols = 3
      ∧ (masterBoardLayout .r916 n).cellWidth = 360
      ∧ (masterBoardLayout .r916 n).cellHeight = 640)
    ∧ (∀ ratio : AspectRatio,
        n ≤ (masterBoardLayout ratio n).rows * (masterBoardLayout ratio n).cols
        ∧ ((masterBoardLayout ratio n).rows - 1) * (masterBoardLayout ratio n).cols < n)
    ∧ (∀ ratio : AspectRatio,
        (masterBoardLayout ratio n).canvasWidth
            = (masterBoardLayout ratio n).cols * (masterBoardLayout ratio n).cellWidth
        ∧ (masterBoardLayout ratio n).canvasHeight
            = 280 + (masterBoardLayout ratio n).rows * (masterBoardLayout ratio n).cellHeight)
    ∧ (masterBoardLayout .r916 7).cols = 3 ∧ (masterBoardLayout .r916 7).rows = 3
    ∧ (masterBoardLayout .r169 7).cols = 2 ∧ (masterBoardLayout .r169 7).rows = 4 := by
  refine ⟨⟨rfl, rfl, rfl⟩, ⟨rfl, rfl, rfl⟩, ?_, ?_, rfl, rfl, rfl, rfl⟩
  · intro ratio
    cases ratio <;> simp only [masterBoardLayout] <;> simp <;> omega
  · intro ratio
    cases ratio <;> exact ⟨rfl, rfl⟩

/-- Witness for C5: the 7-keyframe instances and the canvas sizes they
give (1080×2200 for `9:16`, 1280×1720 for `16:9`). -/
theorem masterBoard_grid_geometry_witness :
    (masterBoardLayout .r916 7).rows = 3
    ∧ (masterBoardLayout .r169 7).rows = 4
    ∧ (masterBoardLayout .r916 7).canvasWidth
        = (masterBoardLayout .r916 7).cols * (masterBoardLayout .r916 7).cellWidth
    ∧ (masterBoardLayout .r916 7).canvasHeight
        = 280 + (masterBoardLayout .r916 7).rows * (masterBoardLayout .r916 7).cellHeight :=
  ⟨(masterBoard_grid_geometry 7 (by decide)).2.2.2.2.2.1,
   (masterBoard_grid_geometry 7 (by decide)).2.2.2.2.2.2.2,
   ((masterBoard_grid_geometry 7 (by decide)).2.2.2.1 .r916).1,
   ((masterBoard_grid_geometry 7 (by decide)).2.2.2.1 .r916).2⟩

/-! ## C6: cover-fit drawing -/

/-- C6: in the master-board draw routine, an image relatively wider than
its cell is scaled to the cell height and centred horizontally
(`offsetX = (cellWidth − renderW) / 2`, `offsetY = 0`); otherwise it is
scaled to the cell width and centred vertically (`offsetY =
(cellHeight − renderH) / 2`, `offsetX = 0`).  A 2:1 image in a 640×360
cell takes the first branch, a 1:2 image in the same cell the second. -/
theorem coverFit_centres (imgW imgH cellW cellH : ℚ) :
    (imgW / imgH > cellW / cellH →
      (coverFit imgW imgH cellW cellH).renderH = cellH
      ∧ (coverFit imgW imgH cellW cellH).offsetX
          = (cellW - (coverFit imgW imgH cellW cellH).renderW) / 2
      ∧ (coverFit imgW imgH cellW cellH).offsetY = 0)
    ∧ (¬ imgW / imgH > cellW / cellH →
      (coverFit imgW imgH cellW cellH).renderW = cellW
      ∧ (coverFit imgW imgH cellW cellH).offsetY
          = (cellH - (coverFit imgW imgH cellW cellH).renderH) / 2
      ∧ (coverFit imgW imgH cellW cellH).offsetX = 0)
    ∧ ((2 : ℚ) / 1 > 640 / 360
      ∧ coverFit 2 1 640 360 = ⟨720, 360, -40, 0⟩)
    ∧ (¬ ((1 : ℚ) / 2 > 640 / 360)
      ∧ coverFit 1 2 640 360 = ⟨640, 1280, 0, -460⟩) := by
  refine ⟨?_, ?_, ⟨by norm_num, by norm_num [coverFit]⟩, ⟨by norm_num, by norm_num [coverFit]⟩⟩
  · intro h
    simp [coverFit, if_pos h]
  · intro h
    simp [coverFit, if_neg h]

/-- Witness for C6: the two concrete draws, evaluated. -/
theorem coverFit_centres_witness :
    (coverFit 2 1 640 360).renderH = 360
    ∧ (coverFit 2 1 640 360).offsetX = (640 - (coverFit 2 1 640 360).renderW) / 2
    ∧ (coverFit 1 2 640 360).renderW = 640
    ∧ (coverFit 1 2 640 360).offsetY = (360 - (coverFit 1 2 640 360).renderH) / 2 :=
  ⟨((coverFit_centres 2 1 640 360).1 (by norm_num)).1,
   ((coverFit_centres 2 1 640 360).1 (by norm_num)).2.1,
   ((coverFit_centres 1 2 640 360).2.1 (by norm_num)).1,
   ((coverFit_centres 1 2 640 360).2.1 (by norm_num)).2.1⟩

/-! ## C7: history ordering and mutation -/

/-- The timestamp-descending order relation on history entries. -/
def tsDesc (a b : SavedStoryboard) : Prop := b.timestamp ≤ a.timestamp

theorem insertByTimestamp_perm (x : SavedStoryboard) (l : List SavedStoryboard) :
    List.Perm (insertByTimestamp x l) (x :: l) := by
  induction l with
  | nil => simp [insertByTimestamp]
  | cons y ys ih =>
      unfold insertByTimestamp
      by_cases h : x.timestamp < y.timestamp
      · rw [if_pos h]
        exact ((ih.cons y).trans (List.Perm.swap x y ys))
      · rw [if_neg h]

theorem mem_insertByTimestamp {z x : SavedStoryboard} {l : List SavedStoryboard}
    (h : z ∈ insertByTimestamp x l) : z = x ∨ z ∈ l := by
  have := (insertByTimestamp_perm x l).mem_iff.mp h
  simpa using this

theorem insertByTimestamp_pairwise (x : SavedStoryboard) (l : List SavedStoryboard)
    (h : List.Pairwise tsDesc l) :
    List.Pairwise tsDesc (insertByTimestamp x l) := by
  induction l with
  | nil => simp [insertByTimestamp, List.pairwise_singleton]
  | cons y ys ih =>
      unfold insertByTimestamp
      rcases List.pairwise_cons.mp h with ⟨hy, hys⟩
      by_cases hlt : x.timestamp < y.timestamp
      · rw [if_pos hlt]
        refine List.pairwise_cons.mpr ⟨?_, ih hys⟩
        intro z hz
        rcases mem_insertByTimestamp hz with rfl | hz
        · exact le_of_lt hlt
        · exact hy z hz
      · rw [if_neg hlt]
        refine List.pairwise_cons.mpr ⟨?_, h⟩
        intro z hz
        rcases List.mem_cons.mp hz with rfl | hz
        · exact le_of_not_lt hlt
        · exact le_trans (hy z hz) (le_of_not_lt hlt)

theorem renderedHistory_perm (l : List SavedStoryboard) :
    List.Perm (renderedHistory l) l := by
  induction l with
  | nil => rfl
  | cons x xs ih =>
      exact (insertByTimestamp_perm x (renderedHistory xs)).trans (ih.cons x)

theorem renderedHistory_sorted (l : List SavedStoryboard) :
    List.Pairwise tsDesc (renderedHistory l) := by
  induction l with
  | nil => exact List.Pairwise.nil
  | cons x xs ih => exact insertByTimestamp_pairwise x (renderedHistory xs) ih

def entry100 : SavedStoryboard := ⟨"a", 100, sampleData, sampleOptions, none⟩

def entry300 : SavedStoryboard := ⟨"b", 300, sampleData, sampleOptions, none⟩

def entry200 : SavedStoryboard := ⟨"c", 200, sampleData, sampleOptions, none⟩

/-- C7: the rendered history order is timestamp-descending (a permutation
of the stored list sorted by `tsDesc`); deleting by id removes exactly
the entries carrying that id from both the in-memory and the persisted
list (which coincide afterwards); "clear all" empties both.  For entries
with timestamps [100, 300, 200] the rendered order is [300, 200, 100],
deleting the timestamp-200 entry leaves [300, 100] rendered and persisted,
and clearing persists the empty list. -/
theorem history_order_and_mutation :
    (∀ l : List SavedStoryboard,
      List.Pairwise tsDesc (renderedHistory l) ∧ List.Perm (renderedHistory l) l)
    ∧ (∀ (st : HistoryState) (id : String),
        (deleteFromHistory st id).persisted = (deleteFromHistory st id).memory
        ∧ ∀ item, item ∈ (deleteFromHistory st id).memory
            ↔ item ∈ st.memory ∧ item.id ≠ id)
    ∧ (∀ st : HistoryState, (clearHistory st).memory = [] ∧ (clearHistory st).persisted = [])
    ∧ renderedHistory [entry100, entry300, entry200] = [entry300, entry200, entry100]
    ∧ (deleteFromHistory ⟨[entry100, entry300, entry200],
          [entry100, entry300, entry200]⟩ "c").memory = [entry100, entry300]
    ∧ (deleteFromHistory ⟨[entry100, entry300, entry200],
          [entry100, entry300, entry200]⟩ "c").persisted = [entry100, entry300]
    ∧ renderedHistory (deleteFromHistory ⟨[entry100, entry300, entry200],
          [entry100, entry300, entry200]⟩ "c").persisted = [entry300, entry100]
    ∧ (clearHistory ⟨[entry100, entry300, entry200],
          [entry100, entry300, entry200]⟩).persisted = [] := by
  refine ⟨fun l => ⟨renderedHistory_sorted l, renderedHistory_perm l⟩,
    fun st id => ⟨rfl, fun item => ?_⟩,
    fun st => ⟨rfl, rfl⟩, by decide, by decide, by decide, by decide, rfl⟩
  simp [deleteFromHistory, List.mem_filter, bne_iff_ne]

/-! ## C8 / C9: shell error handling -/

/-- C8: when no credential is resolvable (stored and environment values
both absent or empty), the generation callback aborts before invoking the
service adapter: the screen state is unchanged (so `UPLOAD` never becomes
`ANALYZING`), the MissingCredential message is set inline, the settings
panel is opened, and the storyboard and history are untouched. -/
theorem handleGenerate_missing_credential
    (store : CredentialStore) (resp : StoryboardResponse) (newId : String) (newTs : Int)
    (preview : Option String) (st : ShellState) (input : GenInput)
    (options : GenerationOptions)
    (hl : optVal store.localKey = "") (he : optVal store.envKey = "") :
    (handleGenerate store resp newId newTs preview st input options).2 = false
    ∧ (handleGenerate store resp newId newTs preview st input options).1.appState
        = st.appState
    ∧ (handleGenerate store resp newId newTs preview st input options).1.error
        = some missingKeyMsg
    ∧ (handleGenerate store resp newId newTs preview st input options).1.isSettingsOpen
        = true
    ∧ (handleGenerate store resp newId newTs preview st input options).1.storyboardData
        = st.storyboardData
    ∧ (handleGenerate store resp newId newTs preview st input options).1.history
        = st.history
    ∧ (handleGenerate store resp newId newTs preview st input options).1.persistedHistory
        = st.persistedHistory := by
  unfold handleGenerate
  rw [if_pos ⟨hl, he⟩]
  exact ⟨rfl, rfl, rfl, rfl, rfl, rfl, rfl⟩

/-- Witness for C8: a concrete shell in `UPLOAD` with no stored key and no
environment key stays in `UPLOAD`, opens settings and calls no adapter. -/
theorem handleGenerate_missing_credential_witness :
    (handleGenerate ⟨none, none⟩ ⟨some "t", .ok sampleData⟩ "id1" 1 none
        sampleShell (.text "script") sampleOptions).2 = false
    ∧ (handleGenerate ⟨none, none⟩ ⟨some "t", .ok sampleData⟩ "id1" 1 none
        sampleShell (.text "script") sampleOptions).1.appState = .UPLOAD
    ∧ (handleGenerate ⟨none, none⟩ ⟨some "t", .ok sampleData⟩ "id1" 1 none
        sampleShell (.text "script") sampleOptions).1.isSettingsOpen = true :=
  ⟨(handleGenerate_missing_credential ⟨none, none⟩ ⟨some "t", .ok sampleData⟩ "id1" 1 none
      sampleShell (.text "script") sampleOptions rfl rfl).1,
   ((handleGenerate_missing_credential ⟨none, none⟩ ⟨some "t", .ok sampleData⟩ "id1" 1 none
      sampleShell (.text "script") sampleOptions rfl rfl).2.1).trans rfl,
   (handleGenerate_missing_credential ⟨none, none⟩ ⟨some "t", .ok sampleData⟩ "id1" 1 none
      sampleShell (.text "script") sampleOptions rfl rfl).2.2.2.1⟩

/-- Every mapped failure message is one of the four documented messages. -/
theorem mapGenerationError_mem (m : String) :
    (mapGenerationError m).1 ∈ generationFailureMsgs := by
  unfold mapGenerationError
  split_ifs <;> simp [generationFailureMsgs]

/-- C9: when the shell-level key check passes but `generateStoryboard`
throws, the shell ends on the Upload screen with the thrown message
mapped to one of the documented inline messages, and the previously
displayed storyboard and the persisted history are untouched. -/
theorem handleGenerate_failure_keeps_state
    (store : CredentialStore) (resp : StoryboardResponse) (newId : String) (newTs : Int)
    (preview : Option String) (st : ShellState) (input : GenInput)
    (options : GenerationOptions) (m : String)
    (hkey : ¬ (optVal store.localKey = "" ∧ optVal store.envKey = ""))
    (herr : (generateStoryboard store options resp).outcome = .error m) :
    (handleGenerate store resp newId newTs preview st input options).1.appState = .UPLOAD
    ∧ (handleGenerate store resp newId newTs preview st input options).1.error
        = some (mapGenerationError m).1
    ∧ (mapGenerationError m).1 ∈ generationFailureMsgs
    ∧ (handleGenerate store resp newId newTs preview st input options).1.storyboardData
        = st.storyboardData
    ∧ (handleGenerate store resp newId newTs preview st input options).1.history
        = st.history
    ∧ (handleGenerate store resp newId newTs preview st input options).1.persistedHistory
        = st.persistedHistory
    ∧ (handleGenerate store resp newId newTs preview st input options).2 = true := by
  unfold handleGenerate
  rw [if_neg hkey, herr]
  cases input <;>
    exact ⟨rfl, rfl, mapGenerationError_mem m, rfl, rfl, rfl, rfl⟩

/-- Witness for C9: a malformed-JSON failure with a stored key returns the
shell to `UPLOAD`, shows the MalformedResponse message, and leaves the
previous storyboard and history as they were. -/
theorem handleGenerate_failure_keeps_state_witness :
    (handleGenerate ⟨some "key", none⟩ ⟨some "t", .error "bad JSON"⟩ "id1" 1 none
        sampleShell (.text "script") sampleOptions).1.appState = .UPLOAD
    ∧ (handleGenerate ⟨some "key", none⟩ ⟨some "t", .error "bad JSON"⟩ "id1" 1 none
        sampleShell (.text "script") sampleOptions).1.error
        = some "AI가 유효한 데이터 형식을 생성하지 못했습니다. 다시 시도해주세요."
    ∧ (handleGenerate ⟨some "key", none⟩ ⟨some "t", .error "bad JSON"⟩ "id1" 1 none
        sampleShell (.text "script") sampleOptions).1.storyboardData = none
    ∧ (handleGenerate ⟨some "key", none⟩ ⟨some "t", .error "bad JSON"⟩ "id1" 1 none
        sampleShell (.text "script") sampleOptions).1.persistedHistory = [] :=
  ⟨(handleGenerate_failure_keeps_state ⟨some "key", none⟩ ⟨some "t", .error "bad JSON"⟩
      "id1" 1 none sampleShell (.text "script") sampleOptions "bad JSON"
      (by simp [optVal]) rfl).1,
   ((handleGenerate_failure_keeps_state ⟨some "key", none⟩ ⟨some "t", .error "bad JSON"⟩
      "id1" 1 none sampleShell (.text "script") sampleOptions "bad JSON"
      (by simp [optVal]) rfl).2.1).trans (by decide),
   ((handleGenerate_failure_keeps_state ⟨some "key", none⟩ ⟨some "t", .error "bad JSON"⟩
      "id1" 1 none sampleShell (.text "script") sampleOptions "bad JSON"
      (by simp [optVal]) rfl).2.2.2.1).trans rfl,
   ((handleGenerate_failure_keeps_state ⟨some "key", none⟩ ⟨some "t", .error "bad JSON"⟩
      "id1" 1 none sampleShell (.text "script") sampleOptions "bad JSON"
      (by simp [optVal]) rfl).2.2.2.2.2.1).trans rfl⟩

/-! ## C10: dialogue editing frame effect -/

/-- C10: editing the dialogue of the keyframe with a given id changes only
that keyframe's `dialogue` field: every other keyframe field, the list's
length, order and ids, and every other part of the storyboard
(`sourceScript`, `aspectRatio`, `headline`, `breakdown`, `theme`,
`approach`, `auditions`) are unchanged; when no keyframe carries the id,
the storyboard is entirely unchanged. -/
theorem handleDialogueChange_frame (st : StoryboardData) (id : Int) (d : String) :
    (handleDialogueChange st id d).sourceScript = st.sourceScript
    ∧ (handleDialogueChange st id d).aspectRatio = st.aspectRatio
    ∧ (handleDialogueChange st id d).headline = st.headline
    ∧ (handleDialogueChange st id d).breakdown = st.breakdown
    ∧ (handleDialogueChange st id d).theme = st.theme
    ∧ (handleDialogueChange st id d).approach = st.approach
    ∧ (handleDialogueChange st id d).auditions = st.auditions
    ∧ List.Forall₂ (fun kf kf' =>
        kf'.id = kf.id ∧ kf'.shotType = kf.shotType ∧ kf'.duration = kf.duration
        ∧ kf'.composition = kf.composition ∧ kf'.action = kf.action
        ∧ kf'.camera = kf.camera ∧ kf'.lensDoF = kf.lensDoF
        ∧ kf'.lighting = kf.lighting ∧ kf'.sound = kf.sound
        ∧ (kf.id ≠ id → kf'.dialogue = kf.dialogue)
        ∧ (kf.id = id → kf'.dialogue = d))
        st.keyframes (handleDialogueChange st id d).keyframes
    ∧ ((∀ kf ∈ st.keyframes, kf.id ≠ id) → handleDialogueChange st id d = st) := by
  refine ⟨rfl, rfl, rfl, rfl, rfl, rfl, rfl, ?_, ?_⟩
  · rw [handleDialogueChange]
    rw [List.forall₂_map_right_iff, List.forall₂_same]
    intro kf _
    by_cases h : kf.id = id <;> simp [h]
  · intro hall
    unfold handleDialogueChange
    have hmap : ∀ l : List Keyframe, (∀ kf ∈ l, kf.id ≠ id) →
        l.map (fun kf => if kf.id = id then { kf with dialogue := d } else kf) = l := by
      intro l
      induction l with
      | nil => intro _; rfl
      | cons kf rest ih =>
          intro hl
          rw [List.map_cons, if_neg (hl kf (by simp)),
            ih fun kf' hmem => hl kf' (by simp [hmem])]
    rw [hmap st.keyframes hall]

/-- Witness for C10: editing keyframe 1's dialogue in a two-keyframe
storyboard keeps the theme, and editing with an id that matches no
keyframe is the identity. -/
theorem handleDialogueChange_frame_witness :
    (handleDialogueChange
        { sampleData with keyframes := [sampleKf 1, sampleKf 2] } 1 "new").theme
      = ({ sampleData with keyframes := [sampleKf 1, sampleKf 2] } : StoryboardData).theme
    ∧ handleDialogueChange
        { sampleData with keyframes := [sampleKf 1, sampleKf 2] } 99 "new"
      = { sampleData with keyframes := [sampleKf 1, sampleKf 2] } :=
  ⟨(handleDialogueChange_frame
      { sampleData with keyframes := [sampleKf 1, sampleKf 2] } 1 "new").2.2.2.2.1,
   (handleDialogueChange_frame
      { sampleData with keyframes := [sampleKf 1, sampleKf 2] } 99 "new").2.2.2.2.2.2.2.2
      (by decide)⟩

end CineScript
